import Mathlib

/-
Shallow embedding of the appcontabilidad backend (three Express/Mongoose
server files) for verifying its natural-language specification.

JavaScript numbers are modelled as exact rationals (ℚ); the MongoDB product
collection is modelled as a list of `Producto` documents threaded through
each request handler, so partially applied stock mutations are visible in
the state returned alongside the HTTP response.  A handler's outcome is
`Except (Nat × String) α`: `Except.error (status, msg)` models
`res.status(status).json(\x7berror: msg\x7d)` and `Except.ok` models a
successful `res.json(...)` of the persisted document.

The repository contains two distinct implementations of `POST /api/ventas`
(the "inventario" backend, and the combined backend in part_000) and two
textually identical implementations of `POST /api/compras` (part_000 and
backend/server.js) that differ only in their Mongoose schema: part_000
declares `cantidad: \x7b required: true, min: 1 \x7d` on transaction line
items — a constraint Mongoose enforces when the transaction document itself
is saved, after all stock mutations — while backend/server.js declares a
plain `cantidad: Number`.  Both variants are embedded.
-/

set_option autoImplicit false

namespace AppContabilidad

/-- Product document (productoSchema): business code, display name, current
stock and the two prices.  Photo/category/supplier fields are carried by the
schema but never read by the ledger logic modelled here, so they are
omitted.  `id` models the Mongo `_id`. -/
structure Producto where
  id : Nat
  codigo : String
  nombre : String
  stock : ℚ
  precioCosto : ℚ
  precioVenta : ℚ
  deriving DecidableEq, Repr

/-- The product collection. -/
abbrev Store := List Producto

/-- `Producto.findById`: first document with the given id, if any. -/
def findById : Store → Nat → Option Producto
  | [], _ => none
  | p :: rest, pid => if p.id = pid then some p else findById rest pid

/-- `producto.save()`: replace the document(s) with this id by the mutated
in-memory document. -/
def saveProducto : Store → Producto → Store
  | [], _ => []
  | q :: rest, p => (if q.id = p.id then p else q) :: saveProducto rest p

/-- One requested line item from the JSON body of a ventas/compras call:
`\x7bproductoId, cantidad, precioUnitario\x7d`. -/
structure ReqItem where
  productoId : Nat
  cantidad : ℚ
  precioUnitario : ℚ
  deriving DecidableEq, Repr

/-- A resolved line item as pushed to `productosVendidos` /
`productosComprados` and embedded in the stored transaction. -/
structure LineItem where
  productoId : Nat
  codigo : String
  nombre : String
  cantidad : ℚ
  precioUnitario : ℚ
  subtotal : ℚ
  deriving DecidableEq, Repr

/-- A stored Venta document (ventaSchema). -/
structure Venta where
  productos : List LineItem
  total : ℚ
  iva : ℚ
  cliente : String
  deriving DecidableEq, Repr

/-- A stored Compra document (compraSchema). -/
structure Compra where
  productos : List LineItem
  total : ℚ
  iva : ℚ
  proveedor : String
  deriving DecidableEq, Repr

/-- HTTP-style outcome: `error (status, message)` or the persisted document. -/
abbrev Resp (α : Type) := Except (Nat × String) α

/-- True iff the response is a success (`res.json` of the document). -/
def respOk {α : Type} : Resp α → Bool
  | Except.ok _ => true
  | Except.error _ => false

/-- The HTTP status of an error response, if the response is an error. -/
def errStatus {α : Type} : Resp α → Option Nat
  | Except.ok _ => none
  | Except.error (st, _) => some st

/-- Item loop of `POST /api/ventas` in the inventario backend (part_001):
resolves each product (404 if absent), rejects with 400 if
`producto.stock < item.cantidad`, otherwise prices the line at
`producto.precioVenta`, decrements stock and saves, accumulating the running
total and the resolved line items. -/
def ventasLoopInv : Store → List ReqItem → ℚ → List LineItem →
    Store × Resp (ℚ × List LineItem)
  | s, [], total, acc => (s, Except.ok (total, acc))
  | s, item :: rest, total, acc =>
    match findById s item.productoId with
    | none => (s, Except.error (404, "Producto no encontrado"))
    | some producto =>
      if producto.stock < item.cantidad then
        (s, Except.error (400, "Stock insuficiente para " ++ producto.nombre))
      else
        ventasLoopInv (saveProducto s { producto with stock := producto.stock - item.cantidad })
          rest (total + producto.precioVenta * item.cantidad)
          (acc ++ [{ productoId := producto.id, codigo := producto.codigo,
                     nombre := producto.nombre, cantidad := item.cantidad,
                     precioUnitario := producto.precioVenta,
                     subtotal := producto.precioVenta * item.cantidad }])

/-- `POST /api/ventas` of the inventario backend (part_001): run the item
loop, then `iva = total * 0.21`, `totalConIva = total + iva`, and persist the
Venta with `cliente || 'Mostrador'`. -/
def postVentaInv (s : Store) (productos : List ReqItem) (cliente : Option String) :
    Store × Resp Venta :=
  match ventasLoopInv s productos 0 [] with
  | (s2, Except.error e) => (s2, Except.error e)
  | (s2, Except.ok (total, vendidos)) =>
    let iva := total * (21 / 100)
    (s2, Except.ok { productos := vendidos, total := total + iva, iva := iva,
                     cliente := cliente.getD "Mostrador" })

/-- Item loop of `POST /api/ventas` in the combined backend (part_000): same
resolution and stock check, but the line is priced at the caller-supplied
`item.precioUnitario`, and the insufficient-stock message has no product
name. -/
def ventasLoop000 : Store → List ReqItem → ℚ → List LineItem →
    Store × Resp (ℚ × List LineItem)
  | s, [], total, acc => (s, Except.ok (total, acc))
  | s, item :: rest, total, acc =>
    match findById s item.productoId with
    | none => (s, Except.error (404, "Producto no encontrado"))
    | some producto =>
      if producto.stock < item.cantidad then
        (s, Except.error (400, "Stock insuficiente"))
      else
        ventasLoop000 (saveProducto s { producto with stock := producto.stock - item.cantidad })
          rest (total + item.precioUnitario * item.cantidad)
          (acc ++ [{ productoId := producto.id, codigo := producto.codigo,
                     nombre := producto.nombre, cantidad := item.cantidad,
                     precioUnitario := item.precioUnitario,
                     subtotal := item.precioUnitario * item.cantidad }])

/-- `POST /api/ventas` of the combined backend (part_000).  Its ventaSchema
declares `cantidad: \x7brequired, min: 1\x7d` on embedded line items, so
`nuevaVenta.save()` throws a Mongoose ValidationError — caught as a 500 —
when any resolved line item has cantidad < 1; the stock mutations performed
by the loop are already persisted at that point.  Default `cliente` is
`'Desconocido'`. -/
def postVenta000 (s : Store) (productos : List ReqItem) (cliente : Option String) :
    Store × Resp Venta :=
  match ventasLoop000 s productos 0 [] with
  | (s2, Except.error e) => (s2, Except.error e)
  | (s2, Except.ok (total, vendidos)) =>
    let iva := total * (21 / 100)
    if vendidos.all (fun li => decide (1 ≤ li.cantidad)) then
      (s2, Except.ok { productos := vendidos, total := total + iva, iva := iva,
                       cliente := cliente.getD "Desconocido" })
    else
      (s2, Except.error (500, "Venta validation failed: cantidad is less than minimum allowed value (1)"))

/-- Item loop of `POST /api/compras` (textually identical in part_000 and in
backend/server.js): resolves each product (404 if absent), prices the line at
the caller-supplied `item.precioUnitario`, and unconditionally adds
`item.cantidad` to the product's stock — no sign, minimum, or bound check on
the quantity or the resulting stock. -/
def comprasLoop : Store → List ReqItem → ℚ → List LineItem →
    Store × Resp (ℚ × List LineItem)
  | s, [], total, acc => (s, Except.ok (total, acc))
  | s, item :: rest, total, acc =>
    match findById s item.productoId with
    | none => (s, Except.error (404, "Producto no encontrado"))
    | some producto =>
      comprasLoop (saveProducto s { producto with stock := producto.stock + item.cantidad })
        rest (total + item.precioUnitario * item.cantidad)
        (acc ++ [{ productoId := producto.id, codigo := producto.codigo,
                   nombre := producto.nombre, cantidad := item.cantidad,
                   precioUnitario := item.precioUnitario,
                   subtotal := item.precioUnitario * item.cantidad }])

/-- `POST /api/compras` of backend/server.js: its compraSchema puts no
constraint on `cantidad`, so the save of the Compra document always
succeeds.  Default `proveedor` is `'Desconocido'`. -/
def postComprasSrv (s : Store) (productos : List ReqItem) (proveedor : Option String) :
    Store × Resp Compra :=
  match comprasLoop s productos 0 [] with
  | (s2, Except.error e) => (s2, Except.error e)
  | (s2, Except.ok (total, comprados)) =>
    let iva := total * (21 / 100)
    (s2, Except.ok { productos := comprados, total := total + iva, iva := iva,
                     proveedor := proveedor.getD "Desconocido" })

/-- `POST /api/compras` of the combined backend (part_000): same route code,
but its compraSchema declares `cantidad: \x7brequired, min: 1\x7d`, so
`nuevaCompra.save()` fails with a 500 when any line item has cantidad < 1 —
after the stock mutations were applied. -/
def postCompras000 (s : Store) (productos : List ReqItem) (proveedor : Option String) :
    Store × Resp Compra :=
  match comprasLoop s productos 0 [] with
  | (s2, Except.error e) => (s2, Except.error e)
  | (s2, Except.ok (total, comprados)) =>
    let iva := total * (21 / 100)
    if comprados.all (fun li => decide (1 ≤ li.cantidad)) then
      (s2, Except.ok { productos := comprados, total := total + iva, iva := iva,
                       proveedor := proveedor.getD "Desconocido" })
    else
      (s2, Except.error (500, "Compra validation failed: cantidad is less than minimum allowed value (1)"))

/-- `PATCH /api/productos/:id/stock` (part_001): `producto.stock += cantidad`,
clamped at zero, then saved.  When the id resolves to no document the
handler dereferences `null` (`producto.stock`), the TypeError is caught and
surfaced as a 500 — not a 404. -/
def patchStock (s : Store) (pid : Nat) (cantidad : ℚ) : Store × Resp Producto :=
  match findById s pid with
  | none => (s, Except.error (500, "Cannot read properties of null reading stock"))
  | some producto =>
    let st := producto.stock + cantidad
    let p2 := { producto with stock := if st < 0 then 0 else st }
    (saveProducto s p2, Except.ok p2)

/-- `POST /api/productos` (part_001), with no photo payload: insert the new
product.  The unique index on `codigo` makes the save fail with Mongo error
11000 when the code already exists, surfaced as a 400. -/
def postProducto (s : Store) (newId : Nat) (codigo nombre : String)
    (stock precioCosto precioVenta : ℚ) : Store × Resp Producto :=
  if s.any (fun p => p.codigo == codigo) then
    (s, Except.error (400, "Código ya existe"))
  else
    let nuevo : Producto := { id := newId, codigo := codigo, nombre := nombre,
                              stock := stock, precioCosto := precioCosto,
                              precioVenta := precioVenta }
    (s ++ [nuevo], Except.ok nuevo)

/-- `DELETE /api/productos/:id` (part_001): on a missing id the handler
dereferences `null` (`producto.fotoId`), caught as a 500; otherwise the
document is deleted. -/
def deleteProducto (s : Store) (pid : Nat) : Store × Resp String :=
  match findById s pid with
  | none => (s, Except.error (500, "Cannot read properties of null reading fotoId"))
  | some producto =>
    (s.filter (fun q => q.id ≠ producto.id), Except.ok "Producto eliminado")

/-- Stock of the product with the given id, if present. -/
def stockOf (s : Store) (pid : Nat) : Option ℚ :=
  (findById s pid).map Producto.stock

/-- A document returned by `findById s pid` has id `pid`. -/
theorem findById_id : ∀ (s : Store) (pid : Nat) (p : Producto),
    findById s pid = some p → p.id = pid := by
  intro s pid p h
  induction s with
  | nil => simp [findById] at h
  | cons q rest ih =>
    by_cases hq : q.id = pid
    · rw [findById, if_pos hq] at h
      injection h with h
      rw [← h]; exact hq
    · rw [findById, if_neg hq] at h
      exact ih h

/-- Effect of `saveProducto` on a later `findById`: lookups of the saved id
now see the saved document (when one was there), other lookups are
unchanged. -/
theorem findById_save (s : Store) (p : Producto) (pid : Nat) :
    findById (saveProducto s p) pid =
      if p.id = pid then (findById s pid).map (fun _ => p) else findById s pid := by
  induction s with
  | nil => simp [saveProducto, findById]
  | cons q rest ih =>
    by_cases hq : q.id = p.id
    · by_cases hp : p.id = pid
      · have hqpid : q.id = pid := hq.trans hp
        simp [saveProducto, findById, hq, hp, hqpid]
      · have hqpid : ¬q.id = pid := by rw [hq]; exact hp
        simp [saveProducto, findById, hq, hp, hqpid, ih]
    · by_cases hqpid : q.id = pid
      · have hp : ¬p.id = pid := fun h => hq (hqpid.trans h.symm)
        have hp2 : ¬pid = p.id := fun h => hp h.symm
        simp [saveProducto, findById, hq, hqpid, hp, hp2]
      · simp [saveProducto, findById, hq, hqpid, ih]

/-- Saving a document never changes which ids resolve. -/
theorem findById_save_isSome (s : Store) (p : Producto) (pid : Nat) :
    (findById (saveProducto s p) pid).isSome = (findById s pid).isSome := by
  rw [findById_save]
  by_cases hp : p.id = pid
  · simp [hp]
  · simp [hp]

/-- A prefix of the item list that the ventas loop (part_001) processes
successfully just continues the loop on the remaining items. -/
theorem ventasLoopInv_append_ok : ∀ (xs : List ReqItem) (s : Store) (t : ℚ) (acc : List LineItem)
    (s1 : Store) (t1 : ℚ) (acc1 : List LineItem) (ys : List ReqItem),
    ventasLoopInv s xs t acc = (s1, Except.ok (t1, acc1)) →
    ventasLoopInv s (xs ++ ys) t acc = ventasLoopInv s1 ys t1 acc1 := by
  intro xs
  induction xs with
  | nil =>
    intro s t acc s1 t1 acc1 ys h
    simp only [ventasLoopInv, Prod.mk.injEq, Except.ok.injEq] at h
    obtain ⟨hs, ht, hacc⟩ := h
    subst hs; subst ht; subst hacc
    simp
  | cons x xs ih =>
    intro s t acc s1 t1 acc1 ys h
    simp only [ventasLoopInv, List.cons_append] at h ⊢
    cases hf : findById s x.productoId with
    | none => simp [hf] at h
    | some p =>
      simp only [hf] at h ⊢
      by_cases hst : p.stock < x.cantidad
      · rw [if_pos hst] at h; simp at h
      · rw [if_neg hst] at h
        rw [if_neg hst]
        exact ih _ _ _ _ _ _ _ h

/-- Same continuation property for the shared compras loop. -/
theorem comprasLoop_append_ok : ∀ (xs : List ReqItem) (s : Store) (t : ℚ) (acc : List LineItem)
    (s1 : Store) (t1 : ℚ) (acc1 : List LineItem) (ys : List ReqItem),
    comprasLoop s xs t acc = (s1, Except.ok (t1, acc1)) →
    comprasLoop s (xs ++ ys) t acc = comprasLoop s1 ys t1 acc1 := by
  intro xs
  induction xs with
  | nil =>
    intro s t acc s1 t1 acc1 ys h
    simp only [comprasLoop, Prod.mk.injEq, Except.ok.injEq] at h
    obtain ⟨hs, ht, hacc⟩ := h
    subst hs; subst ht; subst hacc
    simp
  | cons x xs ih =>
    intro s t acc s1 t1 acc1 ys h
    simp only [comprasLoop, List.cons_append] at h ⊢
    cases hf : findById s x.productoId with
    | none => simp [hf] at h
    | some p =>
      simp only [hf] at h ⊢
      exact ih _ _ _ _ _ _ _ h

/-- Invariant of a successful ventas loop (part_001): the accumulator is
extended by one resolved line item per requested item, quantities are copied
from the request, the running total is the sum of the new items' subtotals,
and each subtotal is unit price times quantity. -/
theorem ventasLoopInv_ok_spec : ∀ (items : List ReqItem) (s : Store) (t : ℚ)
    (acc : List LineItem) (s2 : Store) (t2 : ℚ) (acc2 : List LineItem),
    ventasLoopInv s items t acc = (s2, Except.ok (t2, acc2)) →
    ∃ ni : List LineItem,
      acc2 = acc ++ ni ∧
      ni.map LineItem.cantidad = items.map ReqItem.cantidad ∧
      t2 = t + (ni.map LineItem.subtotal).sum ∧
      ∀ li ∈ ni, li.subtotal = li.precioUnitario * li.cantidad := by
  intro items
  induction items with
  | nil =>
    intro s t acc s2 t2 acc2 h
    simp only [ventasLoopInv, Prod.mk.injEq, Except.ok.injEq] at h
    obtain ⟨hs, ht, hacc⟩ := h
    exact ⟨[], by simp [hacc], by simp, by simp [ht], by simp⟩
  | cons x xs ih =>
    intro s t acc s2 t2 acc2 h
    simp only [ventasLoopInv] at h
    cases hf : findById s x.productoId with
    | none => simp [hf] at h
    | some p =>
      simp only [hf] at h
      by_cases hst : p.stock < x.cantidad
      · rw [if_pos hst] at h; simp at h
      · rw [if_neg hst] at h
        obtain ⟨ni, hacc, hcant, ht, hsub⟩ := ih _ _ _ _ _ _ h
        refine ⟨{ productoId := p.id, codigo := p.codigo, nombre := p.nombre,
                  cantidad := x.cantidad, precioUnitario := p.precioVenta,
                  subtotal := p.precioVenta * x.cantidad } :: ni, ?_, ?_, ?_, ?_⟩
        · simp [hacc]
        · simp [hcant]
        · rw [ht]; simp; ring
        · intro li hli
          rcases List.mem_cons.mp hli with hli | hli
          · rw [hli]
          · exact hsub li hli

/-- Invariant of a successful ventas loop of part_000: like the part_001
loop, but the stored unit price is copied from the request. -/
theorem ventasLoop000_ok_spec : ∀ (items : List ReqItem) (s : Store) (t : ℚ)
    (acc : List LineItem) (s2 : Store) (t2 : ℚ) (acc2 : List LineItem),
    ventasLoop000 s items t acc = (s2, Except.ok (t2, acc2)) →
    ∃ ni : List LineItem,
      acc2 = acc ++ ni ∧
      ni.map LineItem.cantidad = items.map ReqItem.cantidad ∧
      ni.map LineItem.precioUnitario = items.map ReqItem.precioUnitario ∧
      t2 = t + (ni.map LineItem.subtotal).sum ∧
      ∀ li ∈ ni, li.subtotal = li.precioUnitario * li.cantidad := by
  intro items
  induction items with
  | nil =>
    intro s t acc s2 t2 acc2 h
    simp only [ventasLoop000, Prod.mk.injEq, Except.ok.injEq] at h
    obtain ⟨hs, ht, hacc⟩ := h
    exact ⟨[], by simp [hacc], by simp, by simp, by simp [ht], by simp⟩
  | cons x xs ih =>
    intro s t acc s2 t2 acc2 h
    simp only [ventasLoop000] at h
    cases hf : findById s x.productoId with
    | none => simp [hf] at h
    | some p =>
      simp only [hf] at h
      by_cases hst : p.stock < x.cantidad
      · rw [if_pos hst] at h; simp at h
      · rw [if_neg hst] at h
        obtain ⟨ni, hacc, hcant, hprecio, ht, hsub⟩ := ih _ _ _ _ _ _ h
        refine ⟨{ productoId := p.id, codigo := p.codigo, nombre := p.nombre,
                  cantidad := x.cantidad, precioUnitario := x.precioUnitario,
                  subtotal := x.precioUnitario * x.cantidad } :: ni, ?_, ?_, ?_, ?_, ?_⟩
        · simp [hacc]
        · simp [hcant]
        · simp [hprecio]
        · rw [ht]; simp; ring
        · intro li hli
          rcases List.mem_cons.mp hli with hli | hli
          · rw [hli]
          · exact hsub li hli

/-- Invariant of a successful compras loop: quantities and unit prices are
copied from the request, the running total is the sum of the new items'
subtotals, and each subtotal is unit price times quantity. -/
theorem comprasLoop_ok_spec : ∀ (items : List ReqItem) (s : Store) (t : ℚ)
    (acc : List LineItem) (s2 : Store) (t2 : ℚ) (acc2 : List LineItem),
    comprasLoop s items t acc = (s2, Except.ok (t2, acc2)) →
    ∃ ni : List LineItem,
      acc2 = acc ++ ni ∧
      ni.map LineItem.cantidad = items.map ReqItem.cantidad ∧
      ni.map LineItem.precioUnitario = items.map ReqItem.precioUnitario ∧
      t2 = t + (ni.map LineItem.subtotal).sum ∧
      ∀ li ∈ ni, li.subtotal = li.precioUnitario * li.cantidad := by
  intro items
  induction items with
  | nil =>
    intro s t acc s2 t2 acc2 h
    simp only [comprasLoop, Prod.mk.injEq, Except.ok.injEq] at h
    obtain ⟨hs, ht, hacc⟩ := h
    exact ⟨[], by simp [hacc], by simp, by simp, by simp [ht], by simp⟩
  | cons x xs ih =>
    intro s t acc s2 t2 acc2 h
    simp only [comprasLoop] at h
    cases hf : findById s x.productoId with
    | none => simp [hf] at h
    | some p =>
      simp only [hf] at h
      obtain ⟨ni, hacc, hcant, hprecio, ht, hsub⟩ := ih _ _ _ _ _ _ h
      refine ⟨{ productoId := p.id, codigo := p.codigo, nombre := p.nombre,
                cantidad := x.cantidad, precioUnitario := x.precioUnitario,
                subtotal := x.precioUnitario * x.cantidad } :: ni, ?_, ?_, ?_, ?_, ?_⟩
      · simp [hacc]
      · simp [hcant]
      · simp [hprecio]
      · rw [ht]; simp; ring
      · intro li hli
        rcases List.mem_cons.mp hli with hli | hli
        · rw [hli]
        · exact hsub li hli

/-- The compras loop never fails when every requested item resolves to an
existing product: there is no stock check and no quantity check. -/
theorem comprasLoop_ok : ∀ (items : List ReqItem) (s : Store) (t : ℚ) (acc : List LineItem),
    (∀ it ∈ items, (findById s it.productoId).isSome = true) →
    ∃ s2 t2 acc2, comprasLoop s items t acc = (s2, Except.ok (t2, acc2)) := by
  intro items
  induction items with
  | nil => intro s t acc _; exact ⟨s, t, acc, rfl⟩
  | cons x xs ih =>
    intro s t acc hall
    have hx := hall x (List.mem_cons_self x xs)
    cases hf : findById s x.productoId with
    | none => rw [hf] at hx; simp at hx
    | some p =>
      have hrest : ∀ it ∈ xs,
          (findById (saveProducto s { p with stock := p.stock + x.cantidad })
            it.productoId).isSome = true := by
        intro it hit
        rw [findById_save_isSome]
        exact hall it (List.mem_cons_of_mem _ hit)
      obtain ⟨s2, t2, acc2, h2⟩ := ih _ _ _ hrest
      refine ⟨s2, t2, acc2, ?_⟩
      simp only [comprasLoop, hf]
      exact h2

/-- When every requested quantity is nonnegative, the compras loop never
decreases any product's stock. -/
theorem comprasLoop_mono : ∀ (items : List ReqItem) (s : Store) (t : ℚ) (acc : List LineItem),
    (∀ it ∈ items, 0 ≤ it.cantidad) →
    ∀ (pid : Nat) (p p2 : Producto), findById s pid = some p →
      findById (comprasLoop s items t acc).1 pid = some p2 → p.stock ≤ p2.stock := by
  intro items
  induction items with
  | nil =>
    intro s t acc _ pid p p2 hp hp2
    simp only [comprasLoop] at hp2
    rw [hp] at hp2
    injection hp2 with h
    rw [← h]
  | cons x xs ih =>
    intro s t acc hall pid p p2 hp hp2
    cases hf : findById s x.productoId with
    | none =>
      simp only [comprasLoop, hf] at hp2
      rw [hp] at hp2
      injection hp2 with h
      rw [← h]
    | some producto =>
      simp only [comprasLoop, hf] at hp2
      have hxq : 0 ≤ x.cantidad := hall x (List.mem_cons_self x xs)
      have hrest : ∀ it ∈ xs, 0 ≤ it.cantidad :=
        fun it hit => hall it (List.mem_cons_of_mem _ hit)
      by_cases hid : producto.id = pid
      · have hpid : pid = x.productoId :=
          hid.symm.trans (findById_id s x.productoId producto hf)
        have hpp : p = producto := by
          rw [hpid, hf] at hp
          injection hp with h
          exact h.symm
        have hsave : findById (saveProducto s { producto with stock := producto.stock + x.cantidad }) pid
            = some { producto with stock := producto.stock + x.cantidad } := by
          rw [findById_save]
          simp only [hid, if_pos]
          rw [hp]
          rfl
        have hstep := ih _ _ _ hrest pid _ p2 hsave hp2
        have : p.stock ≤ producto.stock + x.cantidad := by
          rw [hpp]
          exact le_add_of_nonneg_right hxq
        exact le_trans this hstep
      · have hsave : findById (saveProducto s { producto with stock := producto.stock + x.cantidad }) pid
            = findById s pid := by
          rw [findById_save]
          simp [hid]
        exact ih _ _ _ hrest pid p p2 (by rw [hsave]; exact hp) hp2

/-- The ventas loop of part_001 never reads the caller-supplied unit price:
overwriting every requested price leaves the outcome unchanged. -/
theorem ventasLoopInv_price_irrel : ∀ (items : List ReqItem) (f : ReqItem → ℚ)
    (s : Store) (t : ℚ) (acc : List LineItem),
    ventasLoopInv s (items.map (fun it => { it with precioUnitario := f it })) t acc =
      ventasLoopInv s items t acc := by
  intro items f
  induction items with
  | nil => intro s t acc; rfl
  | cons x xs ih =>
    intro s t acc
    simp only [List.map_cons, ventasLoopInv]
    cases hf : findById s x.productoId with
    | none => rfl
    | some p =>
      simp only []
      by_cases hst : p.stock < x.cantidad
      · rw [if_pos hst, if_pos hst]
      · rw [if_neg hst, if_neg hst]
        exact ih _ _ _

/-- The spec's scenario product: code "A1", stock 10, sale price 100. -/
def prodA1 : Producto :=
  { id := 1, codigo := "A1", nombre := "Articulo A1", stock := 10,
    precioCosto := 60, precioVenta := 100 }

/-- A product with stock 5, used for the adjust-stock and purchase scenarios. -/
def prodB : Producto :=
  { id := 2, codigo := "B1", nombre := "Articulo B1", stock := 5,
    precioCosto := 3, precioVenta := 8 }

/-- C2: on every line-item list on which a Sale succeeds, each persisted
LineItem's subtotal is quantity times the resolved unit price, the stored
iva is the sum of line-item subtotals times 21/100, and the stored total is
that sum times 121/100. -/
theorem venta_totals_spec (s : Store) (items : List ReqItem) (cliente : Option String)
    (s2 : Store) (v : Venta) (h : postVentaInv s items cliente = (s2, Except.ok v)) :
    (∀ li ∈ v.productos, li.subtotal = li.cantidad * li.precioUnitario) ∧
    v.iva = (v.productos.map LineItem.subtotal).sum * (21 / 100) ∧
    v.total = (v.productos.map LineItem.subtotal).sum * (121 / 100) := by
  cases hl : ventasLoopInv s items 0 [] with
  | mk s1 r =>
    cases r with
    | error e =>
      simp only [postVentaInv, hl] at h
      simp at h
    | ok pr =>
      obtain ⟨t, acc⟩ := pr
      simp only [postVentaInv, hl] at h
      rw [Prod.mk.injEq] at h
      obtain ⟨hs, hv⟩ := h
      injection hv with hv
      obtain ⟨ni, hacc, hcant, ht, hsub⟩ := ventasLoopInv_ok_spec items s 0 [] s1 t acc hl
      rw [List.nil_append] at hacc
      subst hacc
      rw [← hv]
      refine ⟨?_, ?_, ?_⟩
      · intro li hli
        rw [hsub li hli, mul_comm]
      · rw [ht]
        norm_num
      · rw [ht]
        norm_num
        ring

/-- C2 witness: the spec scenario — a Sale of 3 units of product A1 (sale
price 100, stock 10) yields iva 63, total 363, and satisfies the totals
invariants. -/
theorem venta_totals_spec_witness :
    postVentaInv [prodA1] [{ productoId := 1, cantidad := 3, precioUnitario := 0 }] none =
      ([{ prodA1 with stock := 7 }],
       Except.ok { productos := [{ productoId := 1, codigo := "A1", nombre := "Articulo A1",
                                   cantidad := 3, precioUnitario := 100, subtotal := 300 }],
                   total := 363, iva := 63, cliente := "Mostrador" }) ∧
    ((∀ li ∈ ({ productos := [{ productoId := 1, codigo := "A1", nombre := "Articulo A1",
                                cantidad := 3, precioUnitario := 100, subtotal := 300 }],
                total := 363, iva := 63, cliente := "Mostrador" } : Venta).productos,
        li.subtotal = li.cantidad * li.precioUnitario) ∧
      (363 : ℚ) = 300 * (121 / 100) ∧ (63 : ℚ) = 300 * (21 / 100)) := by
  have h : postVentaInv [prodA1] [{ productoId := 1, cantidad := 3, precioUnitario := 0 }] none =
      ([{ prodA1 with stock := 7 }],
       Except.ok { productos := [{ productoId := 1, codigo := "A1", nombre := "Articulo A1",
                                   cantidad := 3, precioUnitario := 100, subtotal := 300 }],
                   total := 363, iva := 63, cliente := "Mostrador" }) := by
    norm_num [postVentaInv, ventasLoopInv, findById, saveProducto, prodA1]
  have hmain := venta_totals_spec _ _ _ _ _ h
  exact ⟨h, hmain.1, by norm_num, by norm_num⟩

/-- C3: whenever the ventas loop (either backend) reaches an item whose
quantity exceeds the resolved product's stock, the call fails with the 400
insufficient-stock error and the store is exactly the store in force before
that item; in particular a single-item Sale that trips the check leaves the
whole store untouched. -/
theorem venta_insufficient_stock_aborts (s : Store) (item : ReqItem) (cliente : Option String)
    (p : Producto) (hf : findById s item.productoId = some p)
    (hst : p.stock < item.cantidad) :
    (∀ (rest : List ReqItem) (t : ℚ) (acc : List LineItem),
      ventasLoopInv s (item :: rest) t acc =
        (s, Except.error (400, "Stock insuficiente para " ++ p.nombre)) ∧
      ventasLoop000 s (item :: rest) t acc =
        (s, Except.error (400, "Stock insuficiente"))) ∧
    postVentaInv s [item] cliente =
      (s, Except.error (400, "Stock insuficiente para " ++ p.nombre)) ∧
    postVenta000 s [item] cliente = (s, Except.error (400, "Stock insuficiente")) := by
  have hInv : ∀ (rest : List ReqItem) (t : ℚ) (acc : List LineItem),
      ventasLoopInv s (item :: rest) t acc =
        (s, Except.error (400, "Stock insuficiente para " ++ p.nombre)) := by
    intro rest t acc
    simp only [ventasLoopInv, hf]
    rw [if_pos hst]
  have h000 : ∀ (rest : List ReqItem) (t : ℚ) (acc : List LineItem),
      ventasLoop000 s (item :: rest) t acc = (s, Except.error (400, "Stock insuficiente")) := by
    intro rest t acc
    simp only [ventasLoop000, hf]
    rw [if_pos hst]
  refine ⟨fun rest t acc => ⟨hInv rest t acc, h000 rest t acc⟩, ?_, ?_⟩
  · simp only [postVentaInv, hInv [] 0 []]
  · simp only [postVenta000, h000 [] 0 []]

/-- C3 witness: the spec scenario — a Sale of 20 units against stock 10
fails with the insufficient-stock error and stock remains 10. -/
theorem venta_insufficient_stock_aborts_witness :
    postVentaInv [prodA1] [{ productoId := 1, cantidad := 20, precioUnitario := 0 }] none =
      ([prodA1], Except.error (400, "Stock insuficiente para Articulo A1")) ∧
    stockOf [prodA1] 1 = some 10 := by
  have hf : findById [prodA1] 1 = some prodA1 := by norm_num [findById, prodA1]
  have hst : prodA1.stock < (20 : ℚ) := by norm_num [prodA1]
  have hmain := venta_insufficient_stock_aborts [prodA1]
    { productoId := 1, cantidad := 20, precioUnitario := 0 } none prodA1 hf hst
  refine ⟨?_, by norm_num [stockOf, findById, prodA1]⟩
  have := hmain.2.1
  simpa [prodA1] using this

/-- C4: when a ventas or compras call reaches an item whose product does not
exist — after a prefix of items processed successfully — the whole call
aborts with the 404 error: no transaction record is persisted, the items
after the failing one are never processed, and the final store is exactly
the store after the successful prefix (earlier stock mutations are not
rolled back). -/
theorem notfound_aborts_no_rollback (s s1 : Store) (xs : List ReqItem) (item : ReqItem)
    (ys : List ReqItem) (t1 : ℚ) (acc1 : List LineItem) (cliente proveedor : Option String) :
    (ventasLoopInv s xs 0 [] = (s1, Except.ok (t1, acc1)) →
      findById s1 item.productoId = none →
      postVentaInv s (xs ++ item :: ys) cliente =
        (s1, Except.error (404, "Producto no encontrado"))) ∧
    (comprasLoop s xs 0 [] = (s1, Except.ok (t1, acc1)) →
      findById s1 item.productoId = none →
      postComprasSrv s (xs ++ item :: ys) proveedor =
        (s1, Except.error (404, "Producto no encontrado")) ∧
      postCompras000 s (xs ++ item :: ys) proveedor =
        (s1, Except.error (404, "Producto no encontrado"))) := by
  constructor
  · intro hpre hmiss
    have hwhole : ventasLoopInv s (xs ++ item :: ys) 0 [] =
        (s1, Except.error (404, "Producto no encontrado")) := by
      rw [ventasLoopInv_append_ok xs s 0 [] s1 t1 acc1 (item :: ys) hpre]
      simp only [ventasLoopInv, hmiss]
    simp only [postVentaInv, hwhole]
  · intro hpre hmiss
    have hwhole : comprasLoop s (xs ++ item :: ys) 0 [] =
        (s1, Except.error (404, "Producto no encontrado")) := by
      rw [comprasLoop_append_ok xs s 0 [] s1 t1 acc1 (item :: ys) hpre]
      simp only [comprasLoop, hmiss]
    exact ⟨by simp only [postComprasSrv, hwhole], by simp only [postCompras000, hwhole]⟩

/-- C4 witness: a two-item Sale whose first item sells 2 units of A1 and
whose second item references the absent id 99 returns the 404 error while
the stock decrement of the first item (10 to 8) persists. -/
theorem notfound_aborts_no_rollback_witness :
    postVentaInv [prodA1]
        [{ productoId := 1, cantidad := 2, precioUnitario := 0 },
         { productoId := 99, cantidad := 1, precioUnitario := 0 }] none =
      ([{ prodA1 with stock := 8 }], Except.error (404, "Producto no encontrado")) ∧
    stockOf [{ prodA1 with stock := 8 }] 1 = some 8 := by
  have hpre : ventasLoopInv [prodA1] [{ productoId := 1, cantidad := 2, precioUnitario := 0 }] 0 [] =
      ([{ prodA1 with stock := 8 }],
       Except.ok (200, [{ productoId := 1, codigo := "A1", nombre := "Articulo A1",
                          cantidad := 2, precioUnitario := 100, subtotal := 200 }])) := by
    norm_num [ventasLoopInv, findById, saveProducto, prodA1]
  have hmiss : findById [{ prodA1 with stock := 8 }] 99 = none := by
    norm_num [findById, prodA1]
  have hmain := (notfound_aborts_no_rollback [prodA1] [{ prodA1 with stock := 8 }]
    [{ productoId := 1, cantidad := 2, precioUnitario := 0 }]
    { productoId := 99, cantidad := 1, precioUnitario := 0 } [] 200
    [{ productoId := 1, codigo := "A1", nombre := "Articulo A1",
       cantidad := 2, precioUnitario := 100, subtotal := 200 }] none none).1 hpre hmiss
  exact ⟨hmain, by norm_num [stockOf, findById, prodA1]⟩

/-- C6: for every existing product, the manual stock adjustment sets the
stock to max(0, stock + delta) — clamping at zero, never negative — while
the Sale path rejects with the insufficient-stock error instead of
clamping. -/
theorem patch_stock_clamps (s : Store) (pid : Nat) (delta : ℚ) (p : Producto)
    (hf : findById s pid = some p) :
    patchStock s pid delta =
      (saveProducto s { p with stock := max 0 (p.stock + delta) },
       Except.ok { p with stock := max 0 (p.stock + delta) }) ∧
    (∀ (item : ReqItem) (cliente : Option String),
      item.productoId = pid → p.stock < item.cantidad →
      postVentaInv s [item] cliente =
        (s, Except.error (400, "Stock insuficiente para " ++ p.nombre))) := by
  constructor
  · have hmax : (if p.stock + delta < 0 then (0 : ℚ) else p.stock + delta) =
        max 0 (p.stock + delta) := by
      rcases lt_or_le (p.stock + delta) 0 with h | h
      · rw [if_pos h, max_eq_left h.le]
      · rw [if_neg (not_lt.mpr h), max_eq_right h]
    simp only [patchStock, hf, hmax]
  · intro item cliente hpid hst
    have hf2 : findById s item.productoId = some p := by rw [hpid]; exact hf
    have hloop : ventasLoopInv s [item] 0 [] =
        (s, Except.error (400, "Stock insuficiente para " ++ p.nombre)) := by
      simp only [ventasLoopInv, hf2]
      rw [if_pos hst]
    simp only [postVentaInv, hloop]

/-- C6 witness: adjusting stock by -1000000 on a product with stock 5
clamps the stock to exactly 0. -/
theorem patch_stock_clamps_witness :
    patchStock [prodB] 2 (-1000000) =
      ([{ prodB with stock := 0 }], Except.ok { prodB with stock := 0 }) ∧
    stockOf (patchStock [prodB] 2 (-1000000)).1 2 = some 0 := by
  have hf : findById [prodB] 2 = some prodB := by norm_num [findById, prodB]
  have hmain := (patch_stock_clamps [prodB] 2 (-1000000) prodB hf).1
  have hmax : max (0 : ℚ) (prodB.stock + (-1000000)) = 0 := by norm_num [prodB]
  constructor
  · rw [hmain, hmax]
    norm_num [saveProducto, prodB]
  · norm_num [patchStock, findById, saveProducto, stockOf, prodB]

/-- C9: for every existing product, a Purchase item unconditionally sets
that product's stock to stock + quantity for whatever rational quantity the
caller supplies — no sign, minimum or bound check — in both compras
implementations, and the server.js call succeeds. -/
theorem compra_unconditional_stock_add (s : Store) (pid : Nat) (c pr : ℚ)
    (prov : Option String) (p : Producto) (hf : findById s pid = some p) :
    (postComprasSrv s [{ productoId := pid, cantidad := c, precioUnitario := pr }] prov).1 =
      saveProducto s { p with stock := p.stock + c } ∧
    respOk (postComprasSrv s [{ productoId := pid, cantidad := c, precioUnitario := pr }] prov).2 =
      true ∧
    (postCompras000 s [{ productoId := pid, cantidad := c, precioUnitario := pr }] prov).1 =
      saveProducto s { p with stock := p.stock + c } ∧
    stockOf (postComprasSrv s [{ productoId := pid, cantidad := c, precioUnitario := pr }] prov).1
      pid = some (p.stock + c) := by
  have hloop : comprasLoop s [{ productoId := pid, cantidad := c, precioUnitario := pr }] 0 [] =
      (saveProducto s { p with stock := p.stock + c },
       Except.ok (0 + pr * c,
         [] ++ [{ productoId := p.id, codigo := p.codigo, nombre := p.nombre,
                  cantidad := c, precioUnitario := pr, subtotal := pr * c }])) := by
    simp only [comprasLoop, hf]
  have h1 : (postComprasSrv s [{ productoId := pid, cantidad := c, precioUnitario := pr }] prov).1 =
      saveProducto s { p with stock := p.stock + c } := by
    simp only [postComprasSrv, hloop]
  refine ⟨h1, ?_, ?_, ?_⟩
  · simp only [postComprasSrv, hloop, respOk]
  · simp only [postCompras000, hloop]
    split <;> rfl
  · rw [h1, stockOf, findById_save]
    have hid : p.id = pid := findById_id s pid p hf
    simp [hid, hf]

/-- C9 witness: a Purchase of quantity -8 against stock 5 succeeds and
drives the stored stock to -3, strictly below zero. -/
theorem compra_unconditional_stock_add_witness :
    stockOf (postComprasSrv [prodB] [{ productoId := 2, cantidad := -8, precioUnitario := 5 }]
        none).1 2 = some (-3) ∧
    (-3 : ℚ) < 0 ∧
    respOk (postComprasSrv [prodB] [{ productoId := 2, cantidad := -8, precioUnitario := 5 }]
        none).2 = true := by
  have hf : findById [prodB] 2 = some prodB := by norm_num [findById, prodB]
  have hmain := compra_unconditional_stock_add [prodB] 2 (-8) 5 none prodB hf
  refine ⟨?_, by norm_num, hmain.2.1⟩
  rw [hmain.2.2.2]
  norm_num [prodB]

/-- C10: a Sale or Purchase with an empty item list succeeds in all four
endpoint implementations: the store is unchanged, the persisted record has
an empty line-item list, iva 0, total 0, and the defaulted counterparty
label ('Mostrador' for the part_001 sale, 'Desconocido' elsewhere). -/
theorem empty_items_transaction (s : Store) :
    postVentaInv s [] none =
      (s, Except.ok { productos := [], total := 0, iva := 0, cliente := "Mostrador" }) ∧
    postVenta000 s [] none =
      (s, Except.ok { productos := [], total := 0, iva := 0, cliente := "Desconocido" }) ∧
    postComprasSrv s [] none =
      (s, Except.ok { productos := [], total := 0, iva := 0, proveedor := "Desconocido" }) ∧
    postCompras000 s [] none =
      (s, Except.ok { productos := [], total := 0, iva := 0, proveedor := "Desconocido" }) := by
  refine ⟨?_, ?_, ?_, ?_⟩ <;>
    norm_num [postVentaInv, postVenta000, postComprasSrv, postCompras000,
              ventasLoopInv, ventasLoop000, comprasLoop]

/-- C1 counterexample: the combined backend's sale endpoint (part_000)
stores the caller-supplied unit price 999 even though the referenced
product's sale price is 100, so the caller-supplied price is not ignored on
every Sale. -/
theorem venta000_caller_price_stored :
    postVenta000 [prodA1] [{ productoId := 1, cantidad := 1, precioUnitario := 999 }] none =
      ([{ prodA1 with stock := 9 }],
       Except.ok { productos := [{ productoId := 1, codigo := "A1", nombre := "Articulo A1",
                                   cantidad := 1, precioUnitario := 999, subtotal := 999 }],
                   total := 120879 / 100, iva := 20979 / 100, cliente := "Desconocido" }) ∧
    prodA1.precioVenta = 100 ∧ (999 : ℚ) ≠ 100 := by
  refine ⟨?_, rfl, by norm_num⟩
  norm_num [postVenta000, ventasLoop000, findById, saveProducto, prodA1]

/-- C1 amended: the inventario backend's sale endpoint prices every line at
the resolved product's precioVenta and never reads the caller-supplied unit
price; the combined backend's sale endpoint and both purchase endpoints
store the caller-supplied unit price. -/
theorem sale_price_sources (s : Store) (items : List ReqItem) (cliente prov : Option String)
    (f : ReqItem → ℚ) :
    postVentaInv s (items.map (fun it => { it with precioUnitario := f it })) cliente =
      postVentaInv s items cliente ∧
    (∀ (item : ReqItem) (rest : List ReqItem) (t : ℚ) (acc : List LineItem) (p : Producto),
      findById s item.productoId = some p → ¬p.stock < item.cantidad →
      ventasLoopInv s (item :: rest) t acc =
        ventasLoopInv (saveProducto s { p with stock := p.stock - item.cantidad }) rest
          (t + p.precioVenta * item.cantidad)
          (acc ++ [{ productoId := p.id, codigo := p.codigo, nombre := p.nombre,
                     cantidad := item.cantidad, precioUnitario := p.precioVenta,
                     subtotal := p.precioVenta * item.cantidad }])) ∧
    (∀ (s2 : Store) (v : Venta), postVenta000 s items cliente = (s2, Except.ok v) →
      v.productos.map LineItem.precioUnitario = items.map ReqItem.precioUnitario) ∧
    (∀ (s2 : Store) (c : Compra), postComprasSrv s items prov = (s2, Except.ok c) →
      c.productos.map LineItem.precioUnitario = items.map ReqItem.precioUnitario) ∧
    (∀ (s2 : Store) (c : Compra), postCompras000 s items prov = (s2, Except.ok c) →
      c.productos.map LineItem.precioUnitario = items.map ReqItem.precioUnitario) := by
  refine ⟨?_, ?_, ?_, ?_, ?_⟩
  · simp only [postVentaInv, ventasLoopInv_price_irrel]
  · intro item rest t acc p hf hst
    simp only [ventasLoopInv, hf]
    rw [if_neg hst]
  · intro s2 v h
    cases hl : ventasLoop000 s items 0 [] with
    | mk s1 r =>
      cases r with
      | error e => simp only [postVenta000, hl] at h; simp at h
      | ok pr =>
        obtain ⟨t, acc⟩ := pr
        simp only [postVenta000, hl] at h
        by_cases hb : acc.all (fun li => decide (1 ≤ li.cantidad)) = true
        · rw [if_pos hb] at h
          rw [Prod.mk.injEq] at h
          obtain ⟨hs, hv⟩ := h
          injection hv with hv
          obtain ⟨ni, hacc, hcant, hprecio, ht, hsub⟩ :=
            ventasLoop000_ok_spec items s 0 [] s1 t acc hl
          rw [List.nil_append] at hacc
          subst hacc
          rw [← hv]
          exact hprecio
        · rw [if_neg hb] at h
          simp at h
  · intro s2 c h
    cases hl : comprasLoop s items 0 [] with
    | mk s1 r =>
      cases r with
      | error e => simp only [postComprasSrv, hl] at h; simp at h
      | ok pr =>
        obtain ⟨t, acc⟩ := pr
        simp only [postComprasSrv, hl] at h
        rw [Prod.mk.injEq] at h
        obtain ⟨hs, hv⟩ := h
        injection hv with hv
        obtain ⟨ni, hacc, hcant, hprecio, ht, hsub⟩ :=
          comprasLoop_ok_spec items s 0 [] s1 t acc hl
        rw [List.nil_append] at hacc
        subst hacc
        rw [← hv]
        exact hprecio
  · intro s2 c h
    cases hl : comprasLoop s items 0 [] with
    | mk s1 r =>
      cases r with
      | error e => simp only [postCompras000, hl] at h; simp at h
      | ok pr =>
        obtain ⟨t, acc⟩ := pr
        simp only [postCompras000, hl] at h
        by_cases hb : acc.all (fun li => decide (1 ≤ li.cantidad)) = true
        · rw [if_pos hb] at h
          rw [Prod.mk.injEq] at h
          obtain ⟨hs, hv⟩ := h
          injection hv with hv
          obtain ⟨ni, hacc, hcant, hprecio, ht, hsub⟩ :=
            comprasLoop_ok_spec items s 0 [] s1 t acc hl
          rw [List.nil_append] at hacc
          subst hacc
          rw [← hv]
          exact hprecio
        · rw [if_neg hb] at h
          simp at h

/-- C1 amended witness: a part_001 Sale gives the same outcome whatever
unit price the caller supplies, and the part_000 Sale of the counterexample
stores exactly the caller's price list. -/
theorem sale_price_sources_witness :
    postVentaInv [prodA1] [{ productoId := 1, cantidad := 2, precioUnitario := 0 }] none =
      postVentaInv [prodA1] [{ productoId := 1, cantidad := 2, precioUnitario := 555 }] none ∧
    ({ productos := [{ productoId := 1, codigo := "A1", nombre := "Articulo A1",
                       cantidad := 1, precioUnitario := 999, subtotal := 999 }],
       total := 120879 / 100, iva := 20979 / 100,
       cliente := "Desconocido" } : Venta).productos.map LineItem.precioUnitario =
      [({ productoId := 1, cantidad := 1, precioUnitario := 999 } : ReqItem)].map
        ReqItem.precioUnitario := by
  constructor
  · exact (sale_price_sources [prodA1]
      [{ productoId := 1, cantidad := 2, precioUnitario := 555 }] none none (fun _ => 0)).1
  · have h000 : postVenta000 [prodA1]
        [{ productoId := 1, cantidad := 1, precioUnitario := 999 }] none =
        ([{ prodA1 with stock := 9 }],
         Except.ok { productos := [{ productoId := 1, codigo := "A1", nombre := "Articulo A1",
                                     cantidad := 1, precioUnitario := 999, subtotal := 999 }],
                     total := 120879 / 100, iva := 20979 / 100, cliente := "Desconocido" }) := by
      norm_num [postVenta000, ventasLoop000, findById, saveProducto, prodA1]
    exact (sale_price_sources [prodA1]
      [{ productoId := 1, cantidad := 1, precioUnitario := 999 }] none none (fun it => it.precioUnitario)).2.2.1 _ _ h000

/-- C5 counterexample: a Purchase whose single item references an existing
product but carries quantity -2 succeeds on the server.js endpoint and
decreases that product's stock from 5 to 3. -/
theorem compra_negative_decreases_stock :
    respOk (postComprasSrv [prodB] [{ productoId := 2, cantidad := -2, precioUnitario := 5 }]
      none).2 = true ∧
    stockOf [prodB] 2 = some 5 ∧
    stockOf (postComprasSrv [prodB] [{ productoId := 2, cantidad := -2, precioUnitario := 5 }]
      none).1 2 = some 3 ∧
    (3 : ℚ) < 5 := by
  norm_num [postComprasSrv, comprasLoop, findById, saveProducto, stockOf, respOk, prodB]

/-- C5 amended: a Purchase whose items all reference existing products and
carry nonnegative quantities succeeds on the server.js endpoint and leaves
every product's stock no smaller than before, with no upper bound check;
the part_000 endpoint behaves the same once its schema minimum (quantity at
least 1) is met. -/
theorem compra_monotone_nonneg (s : Store) (items : List ReqItem) (prov : Option String) :
    ((∀ it ∈ items, (findById s it.productoId).isSome = true) →
     (∀ it ∈ items, 0 ≤ it.cantidad) →
      respOk (postComprasSrv s items prov).2 = true ∧
      ∀ (pid : Nat) (p p2 : Producto), findById s pid = some p →
        findById (postComprasSrv s items prov).1 pid = some p2 → p.stock ≤ p2.stock) ∧
    ((∀ it ∈ items, (findById s it.productoId).isSome = true) →
     (∀ it ∈ items, 1 ≤ it.cantidad) →
      respOk (postCompras000 s items prov).2 = true ∧
      ∀ (pid : Nat) (p p2 : Producto), findById s pid = some p →
        findById (postCompras000 s items prov).1 pid = some p2 → p.stock ≤ p2.stock) := by
  constructor
  · intro hfound hnn
    obtain ⟨s2, t2, acc2, hloop⟩ := comprasLoop_ok items s 0 [] hfound
    have hs1 : (postComprasSrv s items prov).1 = s2 := by
      simp only [postComprasSrv, hloop]
    refine ⟨by simp only [postComprasSrv, hloop, respOk], ?_⟩
    intro pid p p2 hp hp2
    rw [hs1] at hp2
    exact comprasLoop_mono items s 0 [] hnn pid p p2 hp (by rw [hloop]; exact hp2)
  · intro hfound h1
    have hnn : ∀ it ∈ items, 0 ≤ it.cantidad :=
      fun it hit => le_trans zero_le_one (h1 it hit)
    obtain ⟨s2, t2, acc2, hloop⟩ := comprasLoop_ok items s 0 [] hfound
    obtain ⟨ni, hacc, hcant, hprecio, ht, hsub⟩ :=
      comprasLoop_ok_spec items s 0 [] s2 t2 acc2 hloop
    rw [List.nil_append] at hacc
    subst hacc
    have hall : acc2.all (fun li => decide (1 ≤ li.cantidad)) = true := by
      rw [List.all_eq_true]
      intro li hli
      have hmem : li.cantidad ∈ acc2.map LineItem.cantidad := List.mem_map_of_mem _ hli
      rw [hcant] at hmem
      obtain ⟨it, hit, heq⟩ := List.mem_map.mp hmem
      exact decide_eq_true (heq ▸ h1 it hit)
    have hs1 : (postCompras000 s items prov).1 = s2 := by
      simp only [postCompras000, hloop]
      rw [if_pos hall]
    constructor
    · simp only [postCompras000, hloop, respOk]
      rw [if_pos hall]
    · intro pid p p2 hp hp2
      rw [hs1] at hp2
      exact comprasLoop_mono items s 0 [] hnn pid p p2 hp (by rw [hloop]; exact hp2)

/-- C5 amended witness: a Purchase of 4 units of product A1 (stock 10)
succeeds and raises the stock to 14, and stock is non-decreasing for every
id. -/
theorem compra_monotone_nonneg_witness :
    respOk (postComprasSrv [prodA1] [{ productoId := 1, cantidad := 4, precioUnitario := 7 }]
      none).2 = true ∧
    stockOf (postComprasSrv [prodA1] [{ productoId := 1, cantidad := 4, precioUnitario := 7 }]
      none).1 1 = some 14 ∧
    (∀ (pid : Nat) (p p2 : Producto), findById [prodA1] pid = some p →
      findById (postComprasSrv [prodA1]
        [{ productoId := 1, cantidad := 4, precioUnitario := 7 }] none).1 pid = some p2 →
      p.stock ≤ p2.stock) := by
  have hmain := (compra_monotone_nonneg [prodA1]
      [{ productoId := 1, cantidad := 4, precioUnitario := 7 }] none).1
    (by
      intro it hit
      rw [List.mem_singleton] at hit
      subst hit
      norm_num [findById, prodA1])
    (by
      intro it hit
      rw [List.mem_singleton] at hit
      subst hit
      norm_num)
  refine ⟨hmain.1, ?_, hmain.2⟩
  norm_num [postComprasSrv, comprasLoop, findById, saveProducto, stockOf, prodA1]

/-- C7 counterexample: a Sale with quantity 0 (quantity < 1) on the
inventario backend succeeds — there is no validation failure and no abort —
leaving stock unchanged. -/
theorem ventaInv_accepts_zero_quantity :
    respOk (postVentaInv [prodA1] [{ productoId := 1, cantidad := 0, precioUnitario := 5 }]
      none).2 = true ∧
    (0 : ℚ) < 1 ∧
    stockOf (postVentaInv [prodA1] [{ productoId := 1, cantidad := 0, precioUnitario := 5 }]
      none).1 1 = some 10 := by
  norm_num [postVentaInv, ventasLoopInv, findById, saveProducto, stockOf, respOk, prodA1]

/-- C7 amended: the inventario sale endpoint performs no quantity
validation — a single-item Sale with nonpositive quantity succeeds whenever
the product exists with nonnegative stock — while in the combined backend a
line item with quantity < 1 makes the final record save fail with a 500
validation error after the loop's stock mutations were already applied
(both for sales and purchases), rather than aborting at the offending
item. -/
theorem quantity_validation_behavior (s : Store) (items : List ReqItem)
    (cliente prov : Option String) :
    (∀ (pid : Nat) (c pr : ℚ) (p : Producto), findById s pid = some p → c ≤ 0 →
      0 ≤ p.stock →
      respOk (postVentaInv s [{ productoId := pid, cantidad := c, precioUnitario := pr }]
        cliente).2 = true) ∧
    (∀ (s2 : Store) (t2 : ℚ) (acc2 : List LineItem),
      ventasLoop000 s items 0 [] = (s2, Except.ok (t2, acc2)) →
      (∃ it ∈ items, it.cantidad < 1) →
      postVenta000 s items cliente =
        (s2, Except.error
          (500, "Venta validation failed: cantidad is less than minimum allowed value (1)"))) ∧
    (∀ (s2 : Store) (t2 : ℚ) (acc2 : List LineItem),
      comprasLoop s items 0 [] = (s2, Except.ok (t2, acc2)) →
      (∃ it ∈ items, it.cantidad < 1) →
      postCompras000 s items prov =
        (s2, Except.error
          (500, "Compra validation failed: cantidad is less than minimum allowed value (1)"))) := by
  refine ⟨?_, ?_, ?_⟩
  · intro pid c pr p hf hc hstock
    have hst : ¬p.stock < c := not_lt.mpr (le_trans hc hstock)
    have hloop : ventasLoopInv s [{ productoId := pid, cantidad := c, precioUnitario := pr }] 0 [] =
        (saveProducto s { p with stock := p.stock - c },
         Except.ok (0 + p.precioVenta * c,
           [] ++ [{ productoId := p.id, codigo := p.codigo, nombre := p.nombre,
                    cantidad := c, precioUnitario := p.precioVenta,
                    subtotal := p.precioVenta * c }])) := by
      simp only [ventasLoopInv, hf]
      rw [if_neg hst]
    simp only [postVentaInv, hloop, respOk]
  · intro s2 t2 acc2 hloop hex
    obtain ⟨it, hit, hlt⟩ := hex
    obtain ⟨ni, hacc, hcant, hprecio, ht, hsub⟩ :=
      ventasLoop000_ok_spec items s 0 [] s2 t2 acc2 hloop
    rw [List.nil_append] at hacc
    subst hacc
    have hhasbad : ¬acc2.all (fun li => decide (1 ≤ li.cantidad)) = true := by
      intro hall
      rw [List.all_eq_true] at hall
      have hmem : it.cantidad ∈ items.map ReqItem.cantidad := List.mem_map_of_mem _ hit
      rw [← hcant] at hmem
      obtain ⟨li, hli, heq⟩ := List.mem_map.mp hmem
      have := of_decide_eq_true (hall li hli)
      rw [heq] at this
      exact absurd hlt (not_lt.mpr this)
    simp only [postVenta000, hloop]
    rw [if_neg hhasbad]
  · intro s2 t2 acc2 hloop hex
    obtain ⟨it, hit, hlt⟩ := hex
    obtain ⟨ni, hacc, hcant, hprecio, ht, hsub⟩ :=
      comprasLoop_ok_spec items s 0 [] s2 t2 acc2 hloop
    rw [List.nil_append] at hacc
    subst hacc
    have hhasbad : ¬acc2.all (fun li => decide (1 ≤ li.cantidad)) = true := by
      intro hall
      rw [List.all_eq_true] at hall
      have hmem : it.cantidad ∈ items.map ReqItem.cantidad := List.mem_map_of_mem _ hit
      rw [← hcant] at hmem
      obtain ⟨li, hli, heq⟩ := List.mem_map.mp hmem
      have := of_decide_eq_true (hall li hli)
      rw [heq] at this
      exact absurd hlt (not_lt.mpr this)
    simp only [postCompras000, hloop]
    rw [if_neg hhasbad]

/-- C7 amended witness: a Sale of quantity -5 on the inventario backend
succeeds, and the combined backend rejects the quantity-0 sale with the 500
validation error while keeping the loop's final store. -/
theorem quantity_validation_behavior_witness :
    respOk (postVentaInv [prodA1] [{ productoId := 1, cantidad := -5, precioUnitario := 0 }]
      none).2 = true ∧
    postVenta000 [prodA1] [{ productoId := 1, cantidad := 0, precioUnitario := 5 }] none =
      ([prodA1], Except.error
        (500, "Venta validation failed: cantidad is less than minimum allowed value (1)")) := by
  constructor
  · exact (quantity_validation_behavior [prodA1] [] none none).1 1 (-5) 0 prodA1
      (by norm_num [findById, prodA1]) (by norm_num) (by norm_num [prodA1])
  · have hloop : ventasLoop000 [prodA1]
        [{ productoId := 1, cantidad := 0, precioUnitario := 5 }] 0 [] =
        ([prodA1], Except.ok (0, [{ productoId := 1, codigo := "A1", nombre := "Articulo A1",
                                    cantidad := 0, precioUnitario := 5, subtotal := 0 }])) := by
      norm_num [ventasLoop000, findById, saveProducto, prodA1]
    exact (quantity_validation_behavior [prodA1]
      [{ productoId := 1, cantidad := 0, precioUnitario := 5 }] none none).2.1 [prodA1] 0
      [{ productoId := 1, codigo := "A1", nombre := "Articulo A1",
         cantidad := 0, precioUnitario := 5, subtotal := 0 }] hloop
      ⟨{ productoId := 1, cantidad := 0, precioUnitario := 5 }, List.mem_singleton_self _,
        by norm_num⟩

/-- C8 counterexample: adjusting stock of a nonexistent product and deleting
a nonexistent product both return 500 (a caught null dereference), not 404,
and a quantity validation failure returns 500, not 400. -/
theorem patch_missing_product_500 :
    errStatus (patchStock [] 1 5).2 = some 500 ∧
    errStatus (deleteProducto [] 1).2 = some 500 ∧
    errStatus (postVenta000 [prodA1] [{ productoId := 1, cantidad := 0, precioUnitario := 5 }]
      none).2 = some 500 ∧
    (500 : Nat) ≠ 404 ∧ (500 : Nat) ≠ 400 := by
  refine ⟨?_, ?_, ?_, by norm_num, by norm_num⟩
  · norm_num [patchStock, findById, errStatus]
  · norm_num [deleteProducto, findById, errStatus]
  · norm_num [postVenta000, ventasLoop000, findById, saveProducto, errStatus, prodA1]

/-- C8 amended: failures carry a structured (status, message) body; a
missing product in a Sale or Purchase item yields 404; insufficient stock
and a duplicate product code yield 400; but stock adjustment and deletion
of a nonexistent product surface as 500. -/
theorem error_status_mapping (s : Store) (pid newId : Nat) (c pr st pc pv : ℚ)
    (codigo nombre : String) (cliente : Option String) :
    (findById s pid = none →
      patchStock s pid c =
        (s, Except.error (500, "Cannot read properties of null reading stock")) ∧
      deleteProducto s pid =
        (s, Except.error (500, "Cannot read properties of null reading fotoId")) ∧
      postVentaInv s [{ productoId := pid, cantidad := c, precioUnitario := pr }] cliente =
        (s, Except.error (404, "Producto no encontrado")) ∧
      postComprasSrv s [{ productoId := pid, cantidad := c, precioUnitario := pr }] cliente =
        (s, Except.error (404, "Producto no encontrado"))) ∧
    (s.any (fun p => p.codigo == codigo) = true →
      postProducto s newId codigo nombre st pc pv =
        (s, Except.error (400, "Código ya existe"))) ∧
    (∀ p : Producto, findById s pid = some p → p.stock < c →
      postVentaInv s [{ productoId := pid, cantidad := c, precioUnitario := pr }] cliente =
        (s, Except.error (400, "Stock insuficiente para " ++ p.nombre))) := by
  refine ⟨?_, ?_, ?_⟩
  · intro hmiss
    have hloopV : ventasLoopInv s [{ productoId := pid, cantidad := c, precioUnitario := pr }]
        0 [] = (s, Except.error (404, "Producto no encontrado")) := by
      simp only [ventasLoopInv, hmiss]
    have hloopC : comprasLoop s [{ productoId := pid, cantidad := c, precioUnitario := pr }]
        0 [] = (s, Except.error (404, "Producto no encontrado")) := by
      simp only [comprasLoop, hmiss]
    exact ⟨by simp only [patchStock, hmiss], by simp only [deleteProducto, hmiss],
      by simp only [postVentaInv, hloopV], by simp only [postComprasSrv, hloopC]⟩
  · intro hdup
    simp only [postProducto]
    rw [if_pos hdup]
  · intro p hf hst
    have hloop : ventasLoopInv s [{ productoId := pid, cantidad := c, precioUnitario := pr }]
        0 [] = (s, Except.error (400, "Stock insuficiente para " ++ p.nombre)) := by
      simp only [ventasLoopInv, hf]
      rw [if_pos hst]
    simp only [postVentaInv, hloop]

/-- C8 amended witness: against a store holding only product A1 — patch and
delete of the absent id 99 give 500, recreating code "A1" gives the 400
duplicate error, an oversized Sale gives 400, and a Sale of the absent id
99 gives 404. -/
theorem error_status_mapping_witness :
    patchStock [prodA1] 99 5 =
      ([prodA1], Except.error (500, "Cannot read properties of null reading stock")) ∧
    deleteProducto [prodA1] 99 =
      ([prodA1], Except.error (500, "Cannot read properties of null reading fotoId")) ∧
    postProducto [prodA1] 7 "A1" "Otro" 0 0 0 =
      ([prodA1], Except.error (400, "Código ya existe")) ∧
    postVentaInv [prodA1] [{ productoId := 1, cantidad := 20, precioUnitario := 0 }] none =
      ([prodA1], Except.error (400, "Stock insuficiente para Articulo A1")) ∧
    postVentaInv [prodA1] [{ productoId := 99, cantidad := 1, precioUnitario := 0 }] none =
      ([prodA1], Except.error (404, "Producto no encontrado")) := by
  have hmiss : findById [prodA1] 99 = none := by norm_num [findById, prodA1]
  have hA := (error_status_mapping [prodA1] 99 7 1 0 0 0 0 "A1" "Otro" none).1 hmiss
  have hdup : [prodA1].any (fun p => p.codigo == "A1") = true := by
    simp [prodA1]
  have hB := (error_status_mapping [prodA1] 1 7 20 0 0 0 0 "A1" "Otro" none).2.1 hdup
  have hf : findById [prodA1] 1 = some prodA1 := by norm_num [findById, prodA1]
  have hC := (error_status_mapping [prodA1] 1 7 20 0 0 0 0 "A1" "Otro" none).2.2 prodA1 hf
    (by norm_num [prodA1])
  have hD := (error_status_mapping [prodA1] 99 7 1 0 0 0 0 "A1" "Otro" none).1 hmiss
  refine ⟨hA.1, hA.2.1, hB, ?_, hD.2.2.1⟩
  have := hC
  simpa [prodA1] using this

end AppContabilidad
